import Mathlib

/-!
Verification development for the market-regime detection and macro-indicator
engine of the Copinance/copinance-os repository.  The Lean definitions below
are shallow embeddings of the Python functions in
`src/copinanceos/infrastructure/tools/analysis/market_regime/rule_based.py`
and `.../market_regime/macro_indicators.py`.  Prices and returns are modelled
as real numbers; Python `None` becomes `Option`; the uniform success/failure
envelope becomes a structure with a `success` flag and optional error text.
-/

namespace Copinance

/-! ## Series preprocessing (`rule_based.py`) -/

/-- Embedding of the guarded logarithm used when building the log-price
series in `_calculate_log_returns` and `_calculate_volatility`
(`log(p) if p > 0 else 0.0`). -/
noncomputable def logPrice (p : ℝ) : ℝ :=
  if 0 < p then Real.log p else 0

/-- Embedding of `_calculate_log_returns` (rule_based.py lines 100-125).
The Python code builds `log(p) if p > 0 else 0.0` for every price, takes
pandas `diff()` and drops the leading `NaN`, so element `i` of the output is
`logPrice prices[i+1] - logPrice prices[i]`. -/
noncomputable def logReturns (prices : List ℝ) : List ℝ :=
  if prices.length < 2 then []
  else (prices.zip prices.tail).map fun q => logPrice q.2 - logPrice q.1

/-- Sample standard deviation with denominator `n - 1`, the default
(`ddof=1`) used by the pandas `rolling(...).std()` call in
`_calculate_volatility`.  The subtraction is real subtraction, matching
pandas.  `rollingStd` only ever applies this to windows holding at least
two observations, where the `ddof=1` denominator is positive; on fewer
observations pandas yields `NaN`, which `rollingStd` models as `none`
instead of applying this function. -/
noncomputable def sampleStd (xs : List ℝ) : ℝ :=
  Real.sqrt (((xs.map fun x => (x - xs.sum / xs.length) ^ 2).sum) /
    ((xs.length : ℝ) - 1))

/-- Embedding of the pandas `rolling(window=w, min_periods=w).std()` call
over a series that may contain missing entries (`NaN` becomes `none`):
position `j` carries a value exactly when the trailing window of size `w`
fits (`w ≤ j + 1`), every entry in that window is present, and the window
holds at least two observations (`2 ≤ w`) — with `ddof=1`, pandas returns
`NaN` for a standard deviation over fewer than two observations, so a
degenerate window produces no value. -/
noncomputable def rollingStd (w : ℕ) (xs : List (Option ℝ)) :
    List (Option ℝ) :=
  (List.range xs.length).map fun j =>
    if 2 ≤ w ∧ w ≤ j + 1 ∧
        ((xs.drop (j + 1 - w)).take w).all Option.isSome then
      some (sampleStd (((xs.drop (j + 1 - w)).take w).filterMap id))
    else none

/-- Embedding of `_calculate_moving_average` (rule_based.py lines 74-97):
pandas rolling mean with `min_periods = window` over the raw price series,
`None` while the window is not yet filled. -/
noncomputable def movingAverage (prices : List ℝ) (w : ℕ) : List (Option ℝ) :=
  if prices.length < w then List.replicate prices.length none
  else (List.range prices.length).map fun j =>
    if w ≤ j + 1 then some (((prices.drop (j + 1 - w)).take w).sum / w)
    else none

/-- Embedding of `_calculate_volatility` (rule_based.py lines 128-170).
The rolling standard deviation runs over the `NaN`-prefixed log-return
series; the code then rebuilds the output as one `None` (first price),
`window` further `None`s, and the annualized values from index
`window + 1` on, discarding the value pandas produces at index `window`.
For `window = 1` every pandas window holds a single observation, whose
`ddof=1` standard deviation is `NaN`, so the whole output is `None`
(`rollingStd` models this); window 0 never reaches the pandas call with a
non-empty series in the tool (the window is a positive parameter or an
adjusted value of at least 5). -/
noncomputable def calcVolatility (prices : List ℝ) (w : ℕ) :
    List (Option ℝ) :=
  if prices.length < w + 1 then List.replicate prices.length none
  else
    (none :: List.replicate w none) ++
      (((rollingStd w
          (none :: (logReturns prices).map some)).map
        (Option.map fun v => v * Real.sqrt 252)).drop (w + 1))

/-- Embedding of `_classify_volatility_regime` (rule_based.py lines
173-207): population mean/stdev of the historical volatilities and
`mu - sigma < v < mu + sigma` classification. -/
noncomputable def classifyVolRegime (v : ℝ) (hist : List ℝ) : String :=
  if hist = [] then "normal"
  else
    if v > hist.sum / hist.length +
        (if 1 < hist.length then
          Real.sqrt (((hist.map fun x =>
            (x - hist.sum / hist.length) ^ 2).sum) / hist.length)
        else 0) then "high"
    else if v < hist.sum / hist.length -
        (if 1 < hist.length then
          Real.sqrt (((hist.map fun x =>
            (x - hist.sum / hist.length) ^ 2).sum) / hist.length)
        else 0) then "low"
    else "normal"

/-- Embedding of the EWMA update loop body of `_calculate_ewma_volatility`
(rule_based.py lines 281-286): given the running variance `v` it appends
`sqrt(new variance) * sqrt(252)` for each remaining return. -/
noncomputable def ewmaVols (lam : ℝ) : ℝ → List ℝ → List ℝ
  | _, [] => []
  | v, r :: rs =>
      (Real.sqrt (lam * v + (1 - lam) * r ^ 2) * Real.sqrt 252) ::
        ewmaVols lam (lam * v + (1 - lam) * r ^ 2) rs

/-- Embedding of `_calculate_ewma_volatility` (rule_based.py lines 244-288):
fewer than two prices yield all-`None`; otherwise `None` for the first price
followed by the annualized EWMA volatilities seeded with the square of the
first log-return. -/
noncomputable def calcEwmaVolatility (prices : List ℝ) (lam : ℝ) :
    List (Option ℝ) :=
  if prices.length < 2 then List.replicate prices.length none
  else
    match logReturns prices with
    | [] => List.replicate prices.length none
    | r0 :: rest => none :: (ewmaVols lam (r0 ^ 2) rest).map some

/-- Reference recursion for the EWMA variance, indexed over the full
log-return list: `v 0 = r 0 ^ 2` and `v (t+1) = lam * v t + (1 - lam) *
r (t+1) ^ 2`.  Used to state what the loop in `_calculate_ewma_volatility`
computes. -/
noncomputable def ewmaVar (lam : ℝ) (rs : List ℝ) : ℕ → ℝ
  | 0 => (rs.getD 0 0) ^ 2
  | t + 1 => lam * ewmaVar lam rs t + (1 - lam) * (rs.getD (t + 1) 0) ^ 2

/-! ## Trend tool (`MarketRegimeDetectTrendTool.execute`) -/

/-- Embedding of the adaptive window resolution in
`MarketRegimeDetectTrendTool.execute` (rule_based.py lines 388-428).
`none` is the insufficient-data failure (fewer than 10 points). -/
def resolveTrendWindows (n shortReq longReq : ℕ) : Option (ℕ × ℕ) :=
  if n < longReq then
    if n < shortReq then
      if n < 10 then none
      else some (max 5 (n / 3), max (max 5 (n / 3) + 5) (n - 5))
    else some (shortReq, max (shortReq + 10) (n - 5))
  else some (shortReq, longReq)

/-- Embedding of the regime/confidence conditional of
`MarketRegimeDetectTrendTool.execute` (rule_based.py lines 471-496). -/
noncomputable def classifyTrend (price : ℝ) (shortMA longMA : Option ℝ)
    (adjMom : ℝ) : String × String :=
  match shortMA, longMA with
  | some s, some l =>
    if price > s ∧ s > l then
      if adjMom > 1.0 then ("bull", "high")
      else if adjMom > 0.25 then ("bull", "medium")
      else ("neutral", "low")
    else if price < s ∧ s < l then
      if adjMom < -1.0 then ("bear", "high")
      else if adjMom < -0.25 then ("bear", "medium")
      else ("neutral", "low")
    else ("neutral", "medium")
  | _, _ => ("neutral", "low")

/-- Numeric value of a confidence tier, ordering low < medium < high. -/
def confTier : String → ℕ
  | "medium" => 1
  | "high" => 2
  | _ => 0

/-- Embedding of the whole-period log-return of
`MarketRegimeDetectTrendTool.execute` (rule_based.py line 441):
`log(current_price / prices[0]) if prices[0] > 0 else 0.0`. -/
noncomputable def trendLogReturn (prices : List ℝ) : ℝ :=
  if 0 < prices.getD 0 0 then
    Real.log (prices.getD (prices.length - 1) 0 / prices.getD 0 0)
  else 0

/-- Embedding of the recent-volatility estimate of
`MarketRegimeDetectTrendTool.execute` (rule_based.py lines 446-455):
annualized population standard deviation of the log-returns of the last 21
prices, `None` when fewer than 21 points exist or no returns result. -/
noncomputable def trendRecentVol (prices : List ℝ) : Option ℝ :=
  if 21 ≤ prices.length ∧
      logReturns (prices.drop (prices.length - 21)) ≠ [] then
    some (Real.sqrt
      (((logReturns (prices.drop (prices.length - 21))).map fun r =>
        (r - (logReturns (prices.drop (prices.length - 21))).sum /
          (logReturns (prices.drop (prices.length - 21))).length) ^ 2).sum /
        (logReturns (prices.drop (prices.length - 21))).length) *
      Real.sqrt 252)
  else none

/-- Embedding of the volatility-scaled momentum of
`MarketRegimeDetectTrendTool.execute` (rule_based.py lines 459-464).  The
Python guard `if recent_vol and recent_vol > 0` falls back to the fixed 20%
annual volatility when the estimate is missing, zero or negative. -/
noncomputable def trendAdjMomentum (prices : List ℝ) : ℝ :=
  match trendRecentVol prices with
  | some v =>
      if 0 < v then trendLogReturn prices / v else trendLogReturn prices / 0.2
  | none => trendLogReturn prices / 0.2

/-- Result envelope of the trend tool, keeping the fields the claims are
about: the success flag, error/suggestion text of failure envelopes, the
classification, and the resolved window periods actually used. -/
structure TrendResult where
  success : Bool
  regime : Option String
  confidence : Option String
  error : Option String
  suggestion : Option String
  shortUsed : ℕ
  longUsed : ℕ
  adjusted : Bool

/-- Embedding of `MarketRegimeDetectTrendTool.execute` (rule_based.py lines
357-569) from the point where the provider has produced the price list.
Python raises `ValueError` inside `log(...)` when its argument is not
positive; those two reachable raise sites (the whole-period log-return at
line 441 and the 20-day momentum at line 502, both guarded only on the
denominator) are modelled by the explicit guards below, which route to the
catch-all failure envelope exactly as the surrounding `try/except` does. -/
noncomputable def trendExecute (prices : List ℝ) (shortReq longReq : ℕ) :
    TrendResult :=
  if prices.length = 0 then
    ⟨false, none, none, some "No historical data available", none,
      shortReq, longReq, false⟩
  else
    match resolveTrendWindows prices.length shortReq longReq with
    | none =>
        ⟨false, none, none,
          some "Insufficient data for trend analysis: need at least 10 data points",
          some "Try a stock with more trading history, or use a shorter lookback period.",
          shortReq, longReq, false⟩
    | some (s, l) =>
      if 0 < prices.getD 0 0 ∧
          prices.getD (prices.length - 1) 0 / prices.getD 0 0 ≤ 0 then
        ⟨false, none, none, some "math domain error", none, shortReq, longReq,
          false⟩
      else if 20 ≤ prices.length ∧ 0 < prices.getD (prices.length - 20) 0 ∧
          prices.getD (prices.length - 1) 0 /
            prices.getD (prices.length - 20) 0 ≤ 0 then
        ⟨false, none, none, some "math domain error", none, shortReq, longReq,
          false⟩
      else
        ⟨true,
          some (classifyTrend (prices.getD (prices.length - 1) 0)
            ((movingAverage prices s).getD (prices.length - 1) none)
            ((movingAverage prices l).getD (prices.length - 1) none)
            (trendAdjMomentum prices)).1,
          some (classifyTrend (prices.getD (prices.length - 1) 0)
            ((movingAverage prices s).getD (prices.length - 1) none)
            ((movingAverage prices l).getD (prices.length - 1) none)
            (trendAdjMomentum prices)).2,
          none, none, s, l, decide (s ≠ shortReq ∨ l ≠ longReq)⟩

/-! ## Volatility tool (`MarketRegimeDetectVolatilityTool.execute`) -/

/-- Result envelope of the volatility tool. -/
structure VolResult where
  success : Bool
  regime : Option String
  error : Option String
  suggestion : Option String
  windowUsed : ℕ

/-- Embedding of `MarketRegimeDetectVolatilityTool.execute` (rule_based.py
lines 648-776) from the point where the provider has produced the price
list: adaptive window, rolling volatility, filtering of unavailable
entries, and classification of the latest valid value. -/
noncomputable def volExecute (prices : List ℝ) (volWindow : ℕ) : VolResult :=
  if prices.length = 0 then
    ⟨false, none, some "No historical data available", none, volWindow⟩
  else if prices.length < volWindow + 1 ∧ prices.length < 10 then
    ⟨false, none,
      some "Insufficient data for volatility analysis: need at least 10 data points",
      some "Try a stock with more trading history, or use a shorter lookback period.",
      volWindow⟩
  else
    if (calcVolatility prices
        (if prices.length < volWindow + 1 then max 5 (prices.length - 5)
         else volWindow)).filterMap id = [] then
      ⟨false, none, some "Could not calculate volatility from available data",
        none,
        (if prices.length < volWindow + 1 then max 5 (prices.length - 5)
         else volWindow)⟩
    else
      ⟨true,
        some (classifyVolRegime
          (((calcVolatility prices
              (if prices.length < volWindow + 1 then
                max 5 (prices.length - 5)
              else volWindow)).filterMap id).getD
            (((calcVolatility prices
              (if prices.length < volWindow + 1 then
                max 5 (prices.length - 5)
              else volWindow)).filterMap id).length - 1) 0)
          ((calcVolatility prices
            (if prices.length < volWindow + 1 then max 5 (prices.length - 5)
             else volWindow)).filterMap id)),
        none, none,
        (if prices.length < volWindow + 1 then max 5 (prices.length - 5)
         else volWindow)⟩

/-! ## Cycle tool (`MarketRegimeDetectCyclesTool.execute`) -/

/-- Embedding of the moving-average period selection of
`MarketRegimeDetectCyclesTool.execute` (rule_based.py lines 866-893) for
inputs that pass the 20-point minimum. -/
def cycleMAPeriods (n : ℕ) : ℕ × ℕ :=
  if n < 50 then (max 5 (n / 4), max (max 5 (n / 4) + 5) (n - 5))
  else (20, 50)

/-- Embedding of the trend-direction conditional expressions of
`MarketRegimeDetectCyclesTool.execute` (rule_based.py lines 958-967):
`"up" if prices[-1] > prices[-period] else "down" if len(prices) > period
else "neutral"` with Python negative indexing `prices[-p] = prices[n-p]`. -/
noncomputable def cycleTrendDir (prices : List ℝ) (period : ℕ) : String :=
  if prices.getD (prices.length - 1) 0 >
      prices.getD (prices.length - period) 0 then "up"
  else if period < prices.length then "down"
  else "neutral"

/-- Embedding of the regime-change detection block of
`MarketRegimeDetectCyclesTool.execute` (rule_based.py lines 955-968):
the comparison periods are the cycle MA periods capped at
`len(prices) - 1`, and the signal is the inequality of the two trend
directions. -/
noncomputable def cycleTrendSignals (prices : List ℝ) :
    String × String × Bool :=
  (cycleTrendDir prices (min (cycleMAPeriods prices.length).1
      (prices.length - 1)),
   cycleTrendDir prices (min (cycleMAPeriods prices.length).2
      (prices.length - 1)),
   decide (cycleTrendDir prices (min (cycleMAPeriods prices.length).1
      (prices.length - 1)) ≠
    cycleTrendDir prices (min (cycleMAPeriods prices.length).2
      (prices.length - 1))))

/-! ## Macro aggregator (`macro_indicators.py`)

The aggregator is embedded over explicit provider behaviours: each fetch a
category performs is an `Except String` outcome, `error` meaning the Python
call raised.  The primary (FRED) fetch sequence of a category is a single
outcome because the surrounding `try` aborts at the first raise; the
fallback (yfinance) fetches carry their close-price lists because the block
inspects their lengths.  Per-series summary metrics and interpretation
fields are not modelled: no claim mentions them and they do not influence
the cascade. -/

deriving instance DecidableEq for Except

/-- Behaviour of the providers as seen by `_get_rates_block`. -/
structure RatesProvider where
  isAvailable : Except String Bool
  fredSeries : Except String Unit
  tnx : Except String (List ℚ)
  deriving DecidableEq

/-- Behaviour of the providers as seen by `_get_credit_block`. -/
structure CreditProvider where
  isAvailable : Except String Bool
  fredSeries : Except String Unit
  hyg : Except String (List ℚ)
  lqd : Except String (List ℚ)
  deriving DecidableEq

/-- Behaviour of the providers as seen by `_get_commodities_block`. -/
structure CommoditiesProvider where
  isAvailable : Except String Bool
  fredSeries : Except String Unit
  uso : Except String (List ℚ)
  deriving DecidableEq

/-- Category result dictionary, keeping the availability flag, the `source`
tag string the code writes ("fred" or "yfinance") and the optional error
string. -/
structure MacroCat where
  available : Bool
  source : String
  error : Option String
  deriving DecidableEq

/-- Spec-side provenance abstraction: the specification names the two-value
provenance set "primary"/"fallback" for what the code tags "fred" and
"yfinance".  Modelled from the spec glossary entry for provenance. -/
def specProvenance (s : String) : String :=
  if s = "fred" then "primary" else "fallback"

/-- Embedding of the yfinance fallback of `_get_rates_block`
(macro_indicators.py lines 213-235): fewer than two ^TNX closes degrade to
unavailable, a raise is caught and degrades to unavailable, otherwise the
proxy result is returned. -/
def ratesFallback (tnx : Except String (List ℚ)) : MacroCat :=
  match tnx with
  | .ok vals =>
      if vals.length < 2 then ⟨false, "yfinance", some "No ^TNX data"⟩
      else ⟨true, "yfinance", none⟩
  | .error e => ⟨false, "yfinance", some e⟩

/-- Embedding of `_get_rates_block` after the availability check
(macro_indicators.py lines 183-235): with FRED available, a successful
primary fetch returns the FRED result and a raise falls through to the
proxies; with FRED unavailable the proxies are used directly. -/
def ratesWithAvail (avail : Bool) (p : RatesProvider) : MacroCat :=
  if avail then
    match p.fredSeries with
    | .ok _ => ⟨true, "fred", none⟩
    | .error _ => ratesFallback p.tnx
  else ratesFallback p.tnx

/-- Embedding of `_get_rates_block` (macro_indicators.py lines 146-235).
The `is_available()` call at line 148 sits outside every `try`, so a raise
there propagates out of the block. -/
def getRatesBlock (p : RatesProvider) : Except String MacroCat :=
  match p.isAvailable with
  | .error e => .error e
  | .ok a => .ok (ratesWithAvail a p)

/-- Embedding of the yfinance fallback of `_get_credit_block`
(macro_indicators.py lines 286-307): an empty HYG or LQD close list
degrades to unavailable, a raise is caught and degrades to unavailable. -/
def creditFallback (hyg lqd : Except String (List ℚ)) : MacroCat :=
  match hyg with
  | .error e => ⟨false, "yfinance", some e⟩
  | .ok hv =>
    match lqd with
    | .error e => ⟨false, "yfinance", some e⟩
    | .ok lv =>
        if hv = [] ∨ lv = [] then ⟨false, "yfinance", some "No HYG/LQD data"⟩
        else ⟨true, "yfinance", none⟩

/-- Embedding of `_get_credit_block` after the availability check
(macro_indicators.py lines 263-307). -/
def creditWithAvail (avail : Bool) (p : CreditProvider) : MacroCat :=
  if avail then
    match p.fredSeries with
    | .ok _ => ⟨true, "fred", none⟩
    | .error _ => creditFallback p.hyg p.lqd
  else creditFallback p.hyg p.lqd

/-- Embedding of `_get_credit_block` (macro_indicators.py lines 237-307);
the `is_available()` call at line 239 can propagate out of the block. -/
def getCreditBlock (p : CreditProvider) : Except String MacroCat :=
  match p.isAvailable with
  | .error e => .error e
  | .ok a => .ok (creditWithAvail a p)

/-- Embedding of the yfinance fallback of `_get_commodities_block`
(macro_indicators.py lines 366-381). -/
def commoditiesFallback (uso : Except String (List ℚ)) : MacroCat :=
  match uso with
  | .ok vals =>
      if vals.length < 2 then ⟨false, "yfinance", some "No USO data"⟩
      else ⟨true, "yfinance", none⟩
  | .error e => ⟨false, "yfinance", some e⟩

/-- Embedding of `_get_commodities_block` after the availability check
(macro_indicators.py lines 337-381). -/
def commoditiesWithAvail (avail : Bool) (p : CommoditiesProvider) :
    MacroCat :=
  if avail then
    match p.fredSeries with
    | .ok _ => ⟨true, "fred", none⟩
    | .error _ => commoditiesFallback p.uso
  else commoditiesFallback p.uso

/-- Embedding of `_get_commodities_block` (macro_indicators.py lines
309-381); the `is_available()` call at line 313 can propagate out of the
block. -/
def getCommoditiesBlock (p : CommoditiesProvider) : Except String MacroCat :=
  match p.isAvailable with
  | .error e => .error e
  | .ok a => .ok (commoditiesWithAvail a p)

/-- Provider behaviours for one full aggregation call; the availability
check is performed once per category, so each category carries its own
outcome. -/
structure MacroProviders where
  rates : RatesProvider
  credit : CreditProvider
  commodities : CommoditiesProvider
  deriving DecidableEq

/-- Result envelope of `MacroRegimeIndicatorsTool.execute`: the success
flag, the per-category entries of the `data` dictionary (absent when a
category is excluded or when the call failed), and the error string of the
failure envelope. -/
structure MacroToolResult where
  success : Bool
  rates : Option MacroCat
  credit : Option MacroCat
  commodities : Option MacroCat
  error : Option String
  deriving DecidableEq

/-- Embedding of `MacroRegimeIndicatorsTool.execute` (macro_indicators.py
lines 111-144): the three category blocks run sequentially inside one
`try`; any exception escaping a block (only the availability checks can
raise out of a block) aborts the call and is converted to the failure
envelope, discarding every category computed so far. -/
def macroExecute (ps : MacroProviders) (incRates incCredit incComm : Bool) :
    MacroToolResult :=
  match (if incRates then (getRatesBlock ps.rates).map some
         else .ok none) with
  | .error e =>
      ⟨false, none, none, none,
        some ("Failed to get macro regime indicators: " ++ e)⟩
  | .ok r =>
    match (if incCredit then (getCreditBlock ps.credit).map some
           else .ok none) with
    | .error e =>
        ⟨false, none, none, none,
          some ("Failed to get macro regime indicators: " ++ e)⟩
    | .ok c =>
      match (if incComm then (getCommoditiesBlock ps.commodities).map some
             else .ok none) with
      | .error e =>
          ⟨false, none, none, none,
            some ("Failed to get macro regime indicators: " ++ e)⟩
      | .ok cm => ⟨true, r, c, cm, none⟩

/-! ## Helper lemmas -/

lemma logReturns_cons (a b : ℝ) (t : List ℝ) :
    logReturns (a :: b :: t) =
      (logPrice b - logPrice a) :: logReturns (b :: t) := by
  unfold logReturns
  rw [if_neg (by simp)]
  cases t with
  | nil => simp
  | cons c t2 =>
      rw [if_neg (by simp)]
      simp

lemma logReturns_length (p : List ℝ) : (logReturns p).length = p.length - 1 := by
  unfold logReturns
  split
  next h =>
    simp only [List.length_nil]
    omega
  next h =>
    simp only [List.length_map, List.length_zip, List.length_tail]
    omega

lemma logReturns_getD : ∀ (p : List ℝ) (i : ℕ), i + 1 < p.length →
    (logReturns p).getD i 0 =
      logPrice (p.getD (i + 1) 0) - logPrice (p.getD i 0)
  | [], i, h => by simp at h
  | [a], i, h => by simp at h
  | a :: b :: t, 0, _ => by simp [logReturns_cons]
  | a :: b :: t, i + 1, h => by
      rw [logReturns_cons]
      simpa using logReturns_getD (b :: t) i (by simpa using h)

lemma logReturns_replicate : ∀ (n : ℕ) (c : ℝ),
    logReturns (List.replicate n c) = List.replicate (n - 1) 0
  | 0, c => by simp [logReturns]
  | 1, c => by simp [logReturns]
  | n + 2, c => by
      rw [List.replicate_succ, List.replicate_succ, logReturns_cons,
        ← List.replicate_succ, logReturns_replicate (n + 1) c]
      simp [List.replicate_succ]

lemma filterMap_id_map_some (l : List ℝ) : (l.map some).filterMap id = l := by
  induction l with
  | nil => simp
  | cons a t ih => simp [ih]

lemma sampleStd_eq_zero (xs : List ℝ) (h : ∀ x ∈ xs, x = 0) :
    sampleStd xs = 0 := by
  have hsum : xs.sum = 0 := List.sum_eq_zero h
  have h2 : (xs.map fun x => (x - xs.sum / xs.length) ^ 2).sum = 0 := by
    apply List.sum_eq_zero
    intro y hy
    rcases List.mem_map.1 hy with ⟨x, hx, rfl⟩
    rw [h x hx, hsum]
    norm_num
  unfold sampleStd
  rw [h2, zero_div, Real.sqrt_zero]

lemma rollingStd_length (w : ℕ) (xs : List (Option ℝ)) :
    (rollingStd w xs).length = xs.length := by
  simp [rollingStd]

lemma rollingStd_getElem (w : ℕ) (rs : List ℝ) (j : ℕ) (h0 : 2 ≤ w)
    (h1 : w + 1 ≤ j) (h2 : j < rs.length + 1) :
    (rollingStd w (none :: rs.map some))[j]? =
      some (some (sampleStd ((rs.drop (j - w)).take w))) := by
  unfold rollingStd
  rw [List.getElem?_map]
  rw [List.getElem?_range (by simpa using h2)]
  simp only [Option.map_some']
  have hdrop : (none :: rs.map some).drop (j + 1 - w) =
      (rs.drop (j - w)).map some := by
    have : j + 1 - w = (j - w) + 1 := by omega
    rw [this, List.drop_succ_cons, List.map_drop]
  rw [hdrop, ← List.map_take]
  rw [if_pos]
  · rw [filterMap_id_map_some]
  · refine ⟨h0, by omega, ?_⟩
    simp only [List.all_eq_true]
    intro x hx
    rcases List.mem_map.1 hx with ⟨a, _, rfl⟩
    rfl

lemma rollingStd_of_w_lt_two (w : ℕ) (hw : w < 2) (xs : List (Option ℝ)) :
    rollingStd w xs = List.replicate xs.length none := by
  unfold rollingStd
  refine List.eq_replicate_iff.2 ⟨by simp, ?_⟩
  intro b hb
  rcases List.mem_map.1 hb with ⟨j, _, rfl⟩
  rw [if_neg (fun hcon => absurd hcon.1 (by omega))]

lemma calcVolatility_length (p : List ℝ) (w : ℕ) :
    (calcVolatility p w).length = p.length := by
  unfold calcVolatility
  split
  · simp
  · rename_i h
    simp [rollingStd_length, logReturns_length]
    omega

lemma calcVolatility_getD_low (p : List ℝ) (w j : ℕ) (h1 : j ≤ w)
    (hlen : w + 1 ≤ p.length) :
    (calcVolatility p w).getD j (some 0) = none := by
  unfold calcVolatility
  rw [if_neg (by omega)]
  rw [List.getD_eq_getElem?_getD]
  rw [List.getElem?_append, if_pos (by simp; omega)]
  cases j with
  | zero => simp
  | succ i =>
      rw [List.getElem?_cons_succ, List.getElem?_replicate, if_pos (by omega)]
      rfl

lemma calcVolatility_getD_high (p : List ℝ) (w j : ℕ) (h0 : 2 ≤ w)
    (h1 : w + 1 ≤ j) (h2 : j < p.length) :
    (calcVolatility p w).getD j none =
      some (sampleStd (((logReturns p).drop (j - w)).take w) *
        Real.sqrt 252) := by
  unfold calcVolatility
  rw [if_neg (by omega)]
  rw [List.getD_eq_getElem?_getD]
  rw [List.getElem?_append_right (by simp; omega)]
  simp only [List.length_cons, List.length_replicate]
  rw [List.getElem?_drop]
  have hidx : w + 1 + (j - (w + 1)) = j := by omega
  rw [hidx]
  rw [List.getElem?_map]
  rw [rollingStd_getElem w (logReturns p) j h0 h1
    (by rw [logReturns_length]; omega)]
  simp

lemma getD_mem_self {α : Type} (l : List α) (i : ℕ) (d : α)
    (h : i < l.length) : l.getD i d ∈ l := by
  rw [List.getD_eq_getElem?_getD, List.getElem?_eq_getElem h]
  exact List.getElem_mem h

lemma ratesFallback_source (t : Except String (List ℚ)) :
    (ratesFallback t).source = "yfinance" := by
  cases t with
  | ok v =>
      simp only [ratesFallback]
      split <;> rfl
  | error e => rfl

lemma creditFallback_source (h l : Except String (List ℚ)) :
    (creditFallback h l).source = "yfinance" := by
  cases h with
  | ok hv =>
      cases l with
      | ok lv =>
          simp only [creditFallback]
          split <;> rfl
      | error e => rfl
  | error e => rfl

lemma commoditiesFallback_source (u : Except String (List ℚ)) :
    (commoditiesFallback u).source = "yfinance" := by
  cases u with
  | ok v =>
      simp only [commoditiesFallback]
      split <;> rfl
  | error e => rfl

lemma ratesWithAvail_degrade_iff (a : Bool) (p : RatesProvider) :
    (ratesWithAvail a p).available = false ↔
      ((a = false ∨ ∃ e, p.fredSeries = Except.error e) ∧
       ((∃ e, p.tnx = Except.error e) ∨
        ∃ v, p.tnx = Except.ok v ∧ v.length < 2)) := by
  unfold ratesWithAvail ratesFallback
  cases a <;> cases hf : p.fredSeries <;> cases ht : p.tnx <;>
    simp [hf, ht] <;> split <;> simp_all

lemma creditWithAvail_degrade_iff (a : Bool) (p : CreditProvider) :
    (creditWithAvail a p).available = false ↔
      ((a = false ∨ ∃ e, p.fredSeries = Except.error e) ∧
       ((∃ e, p.hyg = Except.error e) ∨ (∃ e, p.lqd = Except.error e) ∨
        ∃ hv lv, p.hyg = Except.ok hv ∧ p.lqd = Except.ok lv ∧
          (hv = [] ∨ lv = []))) := by
  unfold creditWithAvail creditFallback
  cases a <;> cases hf : p.fredSeries <;> cases hh : p.hyg <;>
    cases hl : p.lqd <;> simp [hf, hh, hl] <;> split <;> simp_all

lemma commoditiesWithAvail_degrade_iff (a : Bool) (p : CommoditiesProvider) :
    (commoditiesWithAvail a p).available = false ↔
      ((a = false ∨ ∃ e, p.fredSeries = Except.error e) ∧
       ((∃ e, p.uso = Except.error e) ∨
        ∃ v, p.uso = Except.ok v ∧ v.length < 2)) := by
  unfold commoditiesWithAvail commoditiesFallback
  cases a <;> cases hf : p.fredSeries <;> cases ht : p.uso <;>
    simp [hf, ht] <;> split <;> simp_all

lemma ratesWithAvail_error_iff (a : Bool) (p : RatesProvider) :
    (ratesWithAvail a p).error.isSome = true ↔
      (ratesWithAvail a p).available = false := by
  unfold ratesWithAvail ratesFallback
  cases a <;> cases hf : p.fredSeries <;> cases ht : p.tnx <;>
    simp [hf, ht] <;> split <;> simp_all

lemma creditWithAvail_error_iff (a : Bool) (p : CreditProvider) :
    (creditWithAvail a p).error.isSome = true ↔
      (creditWithAvail a p).available = false := by
  unfold creditWithAvail creditFallback
  cases a <;> cases hf : p.fredSeries <;> cases hh : p.hyg <;>
    cases hl : p.lqd <;> simp [hf, hh, hl] <;> split <;> simp_all

lemma commoditiesWithAvail_error_iff (a : Bool) (p : CommoditiesProvider) :
    (commoditiesWithAvail a p).error.isSome = true ↔
      (commoditiesWithAvail a p).available = false := by
  unfold commoditiesWithAvail commoditiesFallback
  cases a <;> cases hf : p.fredSeries <;> cases ht : p.uso <;>
    simp [hf, ht] <;> split <;> simp_all

/-! ## Claim theorems -/

/-- C1, counterexample: the window invariant fails on the code as stated.
With the default request (short 50, long 200) and 50 available points the
resolved long window is `max(50+10, 45) = 60 > 50`, so a resolved window
exceeds the available data length; and with an adversarial request
(short 200, long 100) and 300 points nothing is adjusted, so
`resolved_short < resolved_long` fails as well. -/
theorem C1_counterexample :
    resolveTrendWindows 50 50 200 = some (50, 60) ∧ ¬ (60 ≤ 50) ∧
    resolveTrendWindows 300 200 100 = some (200, 100) ∧ ¬ (200 < 100) := by
  decide

/-- C1, amended: for every price series with at least 10 available points
and a requested short window below the requested long window, the resolved
configuration of `MarketRegimeDetectTrendTool.execute` satisfies
`resolved_short < resolved_long`, `resolved_short ≤ available`, and
`resolved_long ≤ max available (requested_short + 10)` (the long window can
exceed the available length by up to 10 when `available` is within 10
points of the requested short window). -/
theorem C1_window_invariant_amended (n s l : ℕ) (hn : 10 ≤ n) (hsl : s < l) :
    ∃ rs rl, resolveTrendWindows n s l = some (rs, rl) ∧
      rs < rl ∧ rs ≤ n ∧ rl ≤ max n (s + 10) := by
  unfold resolveTrendWindows
  by_cases h1 : n < l
  · rw [if_pos h1]
    by_cases h2 : n < s
    · rw [if_pos h2, if_neg (by omega)]
      exact ⟨_, _, rfl, by omega, by omega, by omega⟩
    · rw [if_neg h2]
      exact ⟨_, _, rfl, by omega, by omega, by omega⟩
  · rw [if_neg h1]
    exact ⟨_, _, rfl, by omega, by omega, by omega⟩

/-- Witness for the amended C1 theorem at 15 available points and the
default 50/200 request. -/
theorem C1_window_invariant_amended_witness :
    ∃ rs rl, resolveTrendWindows 15 50 200 = some (rs, rl) ∧
      rs < rl ∧ rs ≤ 15 ∧ rl ≤ max 15 (50 + 10) :=
  C1_window_invariant_amended 15 50 200 (by decide) (by decide)

/-- C2: whenever the primary macro provider reports unavailable, every
included category result of `MacroRegimeIndicatorsTool.execute` carries the
fallback provenance (the code tag "yfinance", which the specification names
"fallback"), independently of all fetch outcomes of the three
categories. -/
theorem C2_fallback_provenance (ps : MacroProviders)
    (hr : ps.rates.isAvailable = Except.ok false)
    (hc : ps.credit.isAvailable = Except.ok false)
    (hcm : ps.commodities.isAvailable = Except.ok false) :
    ∃ cr cc ccm,
      (macroExecute ps true true true).rates = some cr ∧
      (macroExecute ps true true true).credit = some cc ∧
      (macroExecute ps true true true).commodities = some ccm ∧
      specProvenance cr.source = "fallback" ∧
      specProvenance cc.source = "fallback" ∧
      specProvenance ccm.source = "fallback" := by
  refine ⟨ratesWithAvail false ps.rates, creditWithAvail false ps.credit,
    commoditiesWithAvail false ps.commodities, ?_, ?_, ?_, ?_, ?_, ?_⟩
  · simp [macroExecute, getRatesBlock, getCreditBlock, getCommoditiesBlock,
      hr, hc, hcm, Except.map]
  · simp [macroExecute, getRatesBlock, getCreditBlock, getCommoditiesBlock,
      hr, hc, hcm, Except.map]
  · simp [macroExecute, getRatesBlock, getCreditBlock, getCommoditiesBlock,
      hr, hc, hcm, Except.map]
  · show specProvenance (ratesWithAvail false ps.rates).source = "fallback"
    unfold ratesWithAvail
    rw [if_neg (by simp), ratesFallback_source]
    rfl
  · show specProvenance (creditWithAvail false ps.credit).source = "fallback"
    unfold creditWithAvail
    rw [if_neg (by simp), creditFallback_source]
    rfl
  · show specProvenance
      (commoditiesWithAvail false ps.commodities).source = "fallback"
    unfold commoditiesWithAvail
    rw [if_neg (by simp), commoditiesFallback_source]
    rfl

/-- Witness for C2 at a concrete provider behaviour with the primary source
unavailable for all three categories. -/
theorem C2_fallback_provenance_witness :
    ∃ cr cc ccm,
      (macroExecute ⟨⟨Except.ok false, Except.ok (), Except.ok [1, 2]⟩,
        ⟨Except.ok false, Except.ok (), Except.ok [1], Except.ok [1]⟩,
        ⟨Except.ok false, Except.ok (), Except.ok []⟩⟩
        true true true).rates = some cr ∧
      (macroExecute ⟨⟨Except.ok false, Except.ok (), Except.ok [1, 2]⟩,
        ⟨Except.ok false, Except.ok (), Except.ok [1], Except.ok [1]⟩,
        ⟨Except.ok false, Except.ok (), Except.ok []⟩⟩
        true true true).credit = some cc ∧
      (macroExecute ⟨⟨Except.ok false, Except.ok (), Except.ok [1, 2]⟩,
        ⟨Except.ok false, Except.ok (), Except.ok [1], Except.ok [1]⟩,
        ⟨Except.ok false, Except.ok (), Except.ok []⟩⟩
        true true true).commodities = some ccm ∧
      specProvenance cr.source = "fallback" ∧
      specProvenance cc.source = "fallback" ∧
      specProvenance ccm.source = "fallback" :=
  C2_fallback_provenance _ rfl rfl rfl

/-- C3, counterexample: the aggregator does not make the categories
independent when the availability check itself raises.  With the rates
availability check raising and every other provider call healthy, `execute`
returns the failure envelope: no category resolves to a category result
(all entries absent), even though credit and commodities would have
succeeded. -/
theorem C3_counterexample :
    (macroExecute ⟨⟨Except.error "boom", Except.ok (), Except.ok [1, 2]⟩,
      ⟨Except.ok true, Except.ok (), Except.ok [1], Except.ok [1]⟩,
      ⟨Except.ok true, Except.ok (), Except.ok [1, 2]⟩⟩
      true true true).success = false ∧
    (macroExecute ⟨⟨Except.error "boom", Except.ok (), Except.ok [1, 2]⟩,
      ⟨Except.ok true, Except.ok (), Except.ok [1], Except.ok [1]⟩,
      ⟨Except.ok true, Except.ok (), Except.ok [1, 2]⟩⟩
      true true true).rates = none ∧
    (macroExecute ⟨⟨Except.error "boom", Except.ok (), Except.ok [1, 2]⟩,
      ⟨Except.ok true, Except.ok (), Except.ok [1], Except.ok [1]⟩,
      ⟨Except.ok true, Except.ok (), Except.ok [1, 2]⟩⟩
      true true true).credit = none ∧
    (macroExecute ⟨⟨Except.error "boom", Except.ok (), Except.ok [1, 2]⟩,
      ⟨Except.ok true, Except.ok (), Except.ok [1], Except.ok [1]⟩,
      ⟨Except.ok true, Except.ok (), Except.ok [1, 2]⟩⟩
      true true true).commodities = none :=
  ⟨rfl, rfl, rfl, rfl⟩

/-- C3, amended: `execute` always returns an envelope (the embedding is a
total function, mirroring the catch-all handler).  Provided no category
availability check raises, the call succeeds, every included category
resolves to its own block result computed only from that category's
provider outcomes (so a failure in one category cannot change another),
and a category result degrades to unavailable exactly when the primary
source is unavailable or its fetch fails and the fallback fetch also fails
(raises or returns insufficient data); a degraded result always carries an
error message.  When an availability check raises, the whole call returns
the failure envelope instead (see the counterexample). -/
theorem C3_category_independence_amended (ps : MacroProviders)
    (incR incC incCm : Bool) (ar ac acm : Bool)
    (hr : ps.rates.isAvailable = Except.ok ar)
    (hc : ps.credit.isAvailable = Except.ok ac)
    (hcm : ps.commodities.isAvailable = Except.ok acm) :
    (macroExecute ps incR incC incCm).success = true ∧
    (macroExecute ps incR incC incCm).rates =
      (if incR then some (ratesWithAvail ar ps.rates) else none) ∧
    (macroExecute ps incR incC incCm).credit =
      (if incC then some (creditWithAvail ac ps.credit) else none) ∧
    (macroExecute ps incR incC incCm).commodities =
      (if incCm then some (commoditiesWithAvail acm ps.commodities)
       else none) ∧
    ((ratesWithAvail ar ps.rates).available = false ↔
      ((ar = false ∨ ∃ e, ps.rates.fredSeries = Except.error e) ∧
       ((∃ e, ps.rates.tnx = Except.error e) ∨
        ∃ v, ps.rates.tnx = Except.ok v ∧ v.length < 2))) ∧
    ((creditWithAvail ac ps.credit).available = false ↔
      ((ac = false ∨ ∃ e, ps.credit.fredSeries = Except.error e) ∧
       ((∃ e, ps.credit.hyg = Except.error e) ∨
        (∃ e, ps.credit.lqd = Except.error e) ∨
        ∃ hv lv, ps.credit.hyg = Except.ok hv ∧
          ps.credit.lqd = Except.ok lv ∧ (hv = [] ∨ lv = [])))) ∧
    ((commoditiesWithAvail acm ps.commodities).available = false ↔
      ((acm = false ∨ ∃ e, ps.commodities.fredSeries = Except.error e) ∧
       ((∃ e, ps.commodities.uso = Except.error e) ∨
        ∃ v, ps.commodities.uso = Except.ok v ∧ v.length < 2))) ∧
    ((ratesWithAvail ar ps.rates).error.isSome = true ↔
      (ratesWithAvail ar ps.rates).available = false) ∧
    ((creditWithAvail ac ps.credit).error.isSome = true ↔
      (creditWithAvail ac ps.credit).available = false) ∧
    ((commoditiesWithAvail acm ps.commodities).error.isSome = true ↔
      (commoditiesWithAvail acm ps.commodities).available = false) := by
  refine ⟨?_, ?_, ?_, ?_,
    ratesWithAvail_degrade_iff ar ps.rates,
    creditWithAvail_degrade_iff ac ps.credit,
    commoditiesWithAvail_degrade_iff acm ps.commodities,
    ratesWithAvail_error_iff ar ps.rates,
    creditWithAvail_error_iff ac ps.credit,
    commoditiesWithAvail_error_iff acm ps.commodities⟩ <;>
  cases incR <;> cases incC <;> cases incCm <;>
    simp [macroExecute, getRatesBlock, getCreditBlock, getCommoditiesBlock,
      hr, hc, hcm, Except.map]

/-- Witness for the amended C3 theorem at a concrete provider behaviour:
rates primary healthy, credit primary unavailable with an empty fallback
(degraded), commodities primary fetch raising with a healthy fallback. -/
theorem C3_category_independence_amended_witness :
    (macroExecute ⟨⟨Except.ok true, Except.ok (), Except.ok []⟩,
      ⟨Except.ok false, Except.ok (), Except.ok [], Except.ok []⟩,
      ⟨Except.ok true, Except.error "f", Except.ok [1, 2]⟩⟩
      true true true).success = true ∧
    (macroExecute ⟨⟨Except.ok true, Except.ok (), Except.ok []⟩,
      ⟨Except.ok false, Except.ok (), Except.ok [], Except.ok []⟩,
      ⟨Except.ok true, Except.error "f", Except.ok [1, 2]⟩⟩
      true true true).rates =
      (if true then some (ratesWithAvail true
        ⟨Except.ok true, Except.ok (), Except.ok []⟩) else none) ∧
    (macroExecute ⟨⟨Except.ok true, Except.ok (), Except.ok []⟩,
      ⟨Except.ok false, Except.ok (), Except.ok [], Except.ok []⟩,
      ⟨Except.ok true, Except.error "f", Except.ok [1, 2]⟩⟩
      true true true).credit =
      (if true then some (creditWithAvail false
        ⟨Except.ok false, Except.ok (), Except.ok [], Except.ok []⟩)
       else none) ∧
    (macroExecute ⟨⟨Except.ok true, Except.ok (), Except.ok []⟩,
      ⟨Except.ok false, Except.ok (), Except.ok [], Except.ok []⟩,
      ⟨Except.ok true, Except.error "f", Except.ok [1, 2]⟩⟩
      true true true).commodities =
      (if true then some (commoditiesWithAvail true
        ⟨Except.ok true, Except.error "f", Except.ok [1, 2]⟩) else none) ∧
    ((ratesWithAvail true ⟨Except.ok true, Except.ok (), Except.ok []⟩).available = false ↔
      ((true = false ∨ ∃ e, (⟨Except.ok true, Except.ok (), Except.ok []⟩ :
          RatesProvider).fredSeries = Except.error e) ∧
       ((∃ e, (⟨Except.ok true, Except.ok (), Except.ok []⟩ :
          RatesProvider).tnx = Except.error e) ∨
        ∃ v, (⟨Except.ok true, Except.ok (), Except.ok []⟩ :
          RatesProvider).tnx = Except.ok v ∧ v.length < 2))) ∧
    ((creditWithAvail false ⟨Except.ok false, Except.ok (), Except.ok [],
        Except.ok []⟩).available = false ↔
      ((false = false ∨ ∃ e, (⟨Except.ok false, Except.ok (), Except.ok [],
          Except.ok []⟩ : CreditProvider).fredSeries = Except.error e) ∧
       ((∃ e, (⟨Except.ok false, Except.ok (), Except.ok [],
          Except.ok []⟩ : CreditProvider).hyg = Except.error e) ∨
        (∃ e, (⟨Except.ok false, Except.ok (), Except.ok [],
          Except.ok []⟩ : CreditProvider).lqd = Except.error e) ∨
        ∃ hv lv, (⟨Except.ok false, Except.ok (), Except.ok [],
          Except.ok []⟩ : CreditProvider).hyg = Except.ok hv ∧
          (⟨Except.ok false, Except.ok (), Except.ok [],
            Except.ok []⟩ : CreditProvider).lqd = Except.ok lv ∧
          (hv = [] ∨ lv = [])))) ∧
    ((commoditiesWithAvail true ⟨Except.ok true, Except.error "f",
        Except.ok [1, 2]⟩).available = false ↔
      ((true = false ∨ ∃ e, (⟨Except.ok true, Except.error "f",
          Except.ok [1, 2]⟩ : CommoditiesProvider).fredSeries =
            Except.error e) ∧
       ((∃ e, (⟨Except.ok true, Except.error "f", Except.ok [1, 2]⟩ :
          CommoditiesProvider).uso = Except.error e) ∨
        ∃ v, (⟨Except.ok true, Except.error "f", Except.ok [1, 2]⟩ :
          CommoditiesProvider).uso = Except.ok v ∧ v.length < 2))) ∧
    ((ratesWithAvail true ⟨Except.ok true, Except.ok (),
        Except.ok []⟩).error.isSome = true ↔
      (ratesWithAvail true ⟨Except.ok true, Except.ok (),
        Except.ok []⟩).available = false) ∧
    ((creditWithAvail false ⟨Except.ok false, Except.ok (), Except.ok [],
        Except.ok []⟩).error.isSome = true ↔
      (creditWithAvail false ⟨Except.ok false, Except.ok (), Except.ok [],
        Except.ok []⟩).available = false) ∧
    ((commoditiesWithAvail true ⟨Except.ok true, Except.error "f",
        Except.ok [1, 2]⟩).error.isSome = true ↔
      (commoditiesWithAvail true ⟨Except.ok true, Except.error "f",
        Except.ok [1, 2]⟩).available = false) :=
  C3_category_independence_amended
    ⟨⟨Except.ok true, Except.ok (), Except.ok []⟩,
      ⟨Except.ok false, Except.ok (), Except.ok [], Except.ok []⟩,
      ⟨Except.ok true, Except.error "f", Except.ok [1, 2]⟩⟩
    true true true true false true rfl rfl rfl

/-- C4, counterexample: for `prices = [0, exp 1]` the first price is
non-positive, yet the log-return the code produces is
`logPrice (exp 1) - logPrice 0 = 1`, not the `0.0` the claim states. -/
theorem C4_counterexample :
    logReturns [0, Real.exp 1] = [1] ∧ ¬ ((0 : ℝ) < 0) ∧ (1 : ℝ) ≠ 0 := by
  refine ⟨?_, by norm_num, one_ne_zero⟩
  have h1 : logPrice (Real.exp 1) = 1 := by
    unfold logPrice
    rw [if_pos (Real.exp_pos 1), Real.log_exp]
  have h0 : logPrice 0 = 0 := by
    unfold logPrice
    rw [if_neg (lt_irrefl 0)]
  unfold logReturns
  rw [if_neg (by simp)]
  simp [h1, h0]

/-- C4, amended: `_calculate_log_returns` never raises, returns a list one
element shorter than the input (empty for fewer than two prices), and
element `i` equals `logPrice prices[i+1] - logPrice prices[i]` where
`logPrice p` is `ln p` for positive `p` and `0` otherwise; in particular it
equals `ln(prices[i+1]/prices[i])` whenever both prices are positive. -/
theorem C4_log_returns_amended (prices : List ℝ) :
    (logReturns prices).length = prices.length - 1 ∧
    (prices.length < 2 → logReturns prices = []) ∧
    (∀ i, i + 1 < prices.length →
      (logReturns prices).getD i 0 =
        logPrice (prices.getD (i + 1) 0) - logPrice (prices.getD i 0)) ∧
    (∀ i, i + 1 < prices.length → 0 < prices.getD i 0 →
      0 < prices.getD (i + 1) 0 →
      (logReturns prices).getD i 0 =
        Real.log (prices.getD (i + 1) 0 / prices.getD i 0)) := by
  refine ⟨logReturns_length prices, ?_, logReturns_getD prices, ?_⟩
  · intro h
    unfold logReturns
    rw [if_pos h]
  · intro i hi hp1 hp2
    rw [logReturns_getD prices i hi]
    unfold logPrice
    rw [if_pos hp2, if_pos hp1, Real.log_div (ne_of_gt hp2) (ne_of_gt hp1)]

/-- Witness for the amended C4 theorem on the two-point series
`[exp 1, exp 3]`. -/
theorem C4_log_returns_amended_witness :
    (logReturns [Real.exp 1, Real.exp 3]).getD 0 0 =
      Real.log (Real.exp 3 / Real.exp 1) := by
  have h := (C4_log_returns_amended [Real.exp 1, Real.exp 3]).2.2.2 0
    (by simp) (by simpa using Real.exp_pos 1) (by simpa using Real.exp_pos 3)
  simpa using h

/-- C5: with the default parameters, a 9-point series makes both the trend
and the volatility classifier return a failure envelope carrying an error
message and a suggestion (no exception), while a 10-point series of
positive prices makes both succeed. -/
theorem C5_insufficient_boundary (p9 p10 : List ℝ) (h9 : p9.length = 9)
    (h10 : p10.length = 10) (hpos : ∀ x ∈ p10, 0 < x) :
    (trendExecute p9 50 200).success = false ∧
    (trendExecute p9 50 200).error.isSome = true ∧
    (trendExecute p9 50 200).suggestion.isSome = true ∧
    (volExecute p9 20).success = false ∧
    (volExecute p9 20).error.isSome = true ∧
    (volExecute p9 20).suggestion.isSome = true ∧
    (trendExecute p10 50 200).success = true ∧
    (volExecute p10 20).success = true := by
  have hgd : ∀ i, i < p10.length → 0 < p10.getD i 0 := by
    intro i h
    rw [List.getD_eq_getElem?_getD, List.getElem?_eq_getElem h]
    exact hpos _ (List.getElem_mem h)
  have ht9 : trendExecute p9 50 200 =
      ⟨false, none, none,
        some "Insufficient data for trend analysis: need at least 10 data points",
        some "Try a stock with more trading history, or use a shorter lookback period.",
        50, 200, false⟩ := by
    unfold trendExecute
    rw [h9]
    rw [if_neg (by norm_num)]
    rfl
  have hv9 : volExecute p9 20 =
      ⟨false, none,
        some "Insufficient data for volatility analysis: need at least 10 data points",
        some "Try a stock with more trading history, or use a shorter lookback period.",
        20⟩ := by
    unfold volExecute
    rw [h9]
    rw [if_neg (by norm_num), if_pos (by norm_num)]
  have hw10 : resolveTrendWindows 10 50 200 = some (5, 10) := by decide
  have ht10 : (trendExecute p10 50 200).success = true := by
    have hratio : 0 < p10.getD (10 - 1) 0 / p10.getD 0 0 :=
      div_pos (hgd 9 (by omega)) (hgd 0 (by omega))
    unfold trendExecute
    rw [h10]
    rw [if_neg (by norm_num)]
    rw [hw10]
    dsimp only
    rw [if_neg (fun hcon => absurd hcon.2 (not_le.2 hratio))]
    rw [if_neg (fun hcon => absurd hcon.1 (by norm_num))]
  have hv10 : (volExecute p10 20).success = true := by
    unfold volExecute
    rw [h10]
    rw [if_neg (by norm_num)]
    rw [if_neg (by norm_num)]
    norm_num
    have h6 : (calcVolatility p10 5).getD 6 none =
        some (sampleStd (((logReturns p10).drop 1).take 5) *
          Real.sqrt 252) := by
      have h := calcVolatility_getD_high p10 5 6 (by omega) (by omega)
        (by rw [h10]; omega)
      simpa using h
    have hlen6 : 6 < (calcVolatility p10 5).length := by
      rw [calcVolatility_length, h10]
      omega
    have hmem : some (sampleStd (((logReturns p10).drop 1).take 5) *
        Real.sqrt 252) ∈ calcVolatility p10 5 := by
      rw [← h6]
      exact getD_mem_self _ 6 none hlen6
    rw [if_neg (show ¬ ∀ a ∈ calcVolatility p10 5, a = none from
      fun hall => by simpa using hall _ hmem)]
  refine ⟨by rw [ht9], by rw [ht9]; rfl, by rw [ht9]; rfl,
    by rw [hv9], by rw [hv9]; rfl, by rw [hv9]; rfl, ht10, hv10⟩

/-- Witness for C5 on the constant series of 9 and 10 points. -/
theorem C5_insufficient_boundary_witness :
    (trendExecute (List.replicate 9 1) 50 200).success = false ∧
    (trendExecute (List.replicate 9 1) 50 200).error.isSome = true ∧
    (trendExecute (List.replicate 9 1) 50 200).suggestion.isSome = true ∧
    (volExecute (List.replicate 9 1) 20).success = false ∧
    (volExecute (List.replicate 9 1) 20).error.isSome = true ∧
    (volExecute (List.replicate 9 1) 20).suggestion.isSome = true ∧
    (trendExecute (List.replicate 10 1) 50 200).success = true ∧
    (volExecute (List.replicate 10 1) 20).success = true :=
  C5_insufficient_boundary (List.replicate 9 1) (List.replicate 10 1)
    (by simp) (by simp)
    (fun x hx => by rw [List.eq_of_mem_replicate hx]; norm_num)

/-- C6, counterexample: with the moving-average ordering held fixed at the
bearish case (price 1 < short-MA 2 < long-MA 3), increasing the
volatility-scaled momentum from -2 to 0 drops the confidence tier from
high (2) to low (0), so increasing `adj_momentum` can decrease the
confidence tier. -/
theorem C6_counterexample :
    confTier (classifyTrend 1 (some 2) (some 3) (-2)).2 = 2 ∧
    confTier (classifyTrend 1 (some 2) (some 3) 0).2 = 0 ∧
    (-2 : ℝ) < 0 := by
  refine ⟨?_, ?_, by norm_num⟩
  · norm_num [classifyTrend, confTier]
  · norm_num [classifyTrend]
    decide

/-- C6, amended: with the moving-average ordering held fixed, increasing
`adj_momentum` never decreases the confidence tier in the bullish ordering
(price > short-MA > long-MA), never increases it in the bearish ordering
(price < short-MA < long-MA), and leaves the classification unchanged in
every other configuration (mixed ordering or an undefined moving
average). -/
theorem C6_monotonic_confidence_amended (p s l m1 m2 : ℝ) (h : m1 ≤ m2) :
    ((p > s ∧ s > l) →
      confTier (classifyTrend p (some s) (some l) m1).2 ≤
        confTier (classifyTrend p (some s) (some l) m2).2) ∧
    ((p < s ∧ s < l) →
      confTier (classifyTrend p (some s) (some l) m2).2 ≤
        confTier (classifyTrend p (some s) (some l) m1).2) ∧
    (¬ (p > s ∧ s > l) → ¬ (p < s ∧ s < l) →
      classifyTrend p (some s) (some l) m1 =
        classifyTrend p (some s) (some l) m2) ∧
    (∀ ol : Option ℝ,
      classifyTrend p none ol m1 = classifyTrend p none ol m2) ∧
    (∀ os : Option ℝ,
      classifyTrend p os none m1 = classifyTrend p os none m2) := by
  refine ⟨?_, ?_, ?_, ?_, ?_⟩
  · intro hb
    unfold classifyTrend
    dsimp only
    rw [if_pos hb, if_pos hb]
    split_ifs <;> simp [confTier] <;> linarith
  · intro hb
    have hnb : ¬ (p > s ∧ s > l) := fun hcon => absurd hb.1 (not_lt.2 (le_of_lt hcon.1))
    unfold classifyTrend
    dsimp only
    rw [if_neg hnb, if_neg hnb, if_pos hb, if_pos hb]
    split_ifs <;> simp [confTier] <;> linarith
  · intro h1 h2
    unfold classifyTrend
    dsimp only
    rw [if_neg h1, if_neg h1, if_neg h2, if_neg h2]
  · intro ol
    cases ol <;> rfl
  · intro os
    cases os <;> rfl

/-- Witness for the amended C6 theorem at the bullish ordering
(price 3 > short-MA 2 > long-MA 1) with momenta 0 and 1. -/
theorem C6_monotonic_confidence_amended_witness :
    (((3:ℝ) > 2 ∧ (2:ℝ) > 1) →
      confTier (classifyTrend 3 (some 2) (some 1) 0).2 ≤
        confTier (classifyTrend 3 (some 2) (some 1) 1).2) ∧
    (((3:ℝ) < 2 ∧ (2:ℝ) < 1) →
      confTier (classifyTrend 3 (some 2) (some 1) 1).2 ≤
        confTier (classifyTrend 3 (some 2) (some 1) 0).2) ∧
    (¬ ((3:ℝ) > 2 ∧ (2:ℝ) > 1) → ¬ ((3:ℝ) < 2 ∧ (2:ℝ) < 1) →
      classifyTrend 3 (some 2) (some 1) 0 =
        classifyTrend 3 (some 2) (some 1) 1) ∧
    (∀ ol : Option ℝ,
      classifyTrend 3 none ol 0 = classifyTrend 3 none ol 1) ∧
    (∀ os : Option ℝ,
      classifyTrend 3 os none 0 = classifyTrend 3 os none 1) :=
  C6_monotonic_confidence_amended 3 2 1 0 1 (by norm_num)

lemma calcVolatility_replicate_mem (n w : ℕ) (c : ℝ) (x : Option ℝ)
    (hx : x ∈ calcVolatility (List.replicate n c) w) :
    x = none ∨ x = some 0 := by
  unfold calcVolatility at hx
  split at hx
  · exact Or.inl (List.eq_of_mem_replicate hx)
  · rw [List.mem_append] at hx
    rcases hx with h | h
    · rcases List.mem_cons.1 h with h2 | h2
      · exact Or.inl h2
      · exact Or.inl (List.eq_of_mem_replicate h2)
    · have h3 := List.mem_of_mem_drop h
      rcases List.mem_map.1 h3 with ⟨y, hy, rfl⟩
      unfold rollingStd at hy
      rcases List.mem_map.1 hy with ⟨j, hj, rfl⟩
      by_cases hcond : 2 ≤ w ∧ w ≤ j + 1 ∧
          (((none :: (logReturns (List.replicate n c)).map some).drop
            (j + 1 - w)).take w).all Option.isSome
      · rw [if_pos hcond]
        right
        rw [Option.map_some']
        have hz : sampleStd
            ((((none :: (logReturns (List.replicate n c)).map some).drop
              (j + 1 - w)).take w).filterMap id) = 0 := by
          apply sampleStd_eq_zero
          intro z hzmem
          rcases List.mem_filterMap.1 hzmem with ⟨a, ha, hid⟩
          have ha2 : a ∈ none :: (logReturns (List.replicate n c)).map some :=
            List.mem_of_mem_drop (List.mem_of_mem_take ha)
          rcases List.mem_cons.1 ha2 with h4 | h4
          · rw [h4] at hid
            simp at hid
          · rcases List.mem_map.1 h4 with ⟨r, hr, rfl⟩
            have hrz : r = z := by simpa using hid
            subst hrz
            have hr0 : r ∈ List.replicate (n - 1) (0 : ℝ) := by
              rw [← logReturns_replicate n c]
              exact hr
            exact List.eq_of_mem_replicate hr0
        rw [hz, zero_mul]
      · rw [if_neg hcond]
        exact Or.inl rfl

lemma classifyVolRegime_zero (hist : List ℝ) (h : ∀ x ∈ hist, x = 0) :
    classifyVolRegime 0 hist = "normal" := by
  unfold classifyVolRegime
  by_cases hn : hist = []
  · rw [if_pos hn]
  · rw [if_neg hn]
    have hsum : hist.sum = 0 := List.sum_eq_zero h
    have hsq : (hist.map fun x => (x - hist.sum / hist.length) ^ 2).sum = 0 := by
      apply List.sum_eq_zero
      intro y hy
      rcases List.mem_map.1 hy with ⟨x, hx, rfl⟩
      rw [h x hx, hsum]
      norm_num
    rw [hsq, hsum]
    simp

/-- C7: sixty constant prices of 100.0 make the volatility classifier
succeed with regime "normal": every computed volatility is zero, the
zero-variance history gives mean 0 and standard deviation 0, and the
`mu - sigma < v < mu + sigma` comparison classifies the current zero
volatility as normal rather than low, with no exception. -/
theorem C7_constant_prices_normal :
    (volExecute (List.replicate 60 100) 20).success = true ∧
    (volExecute (List.replicate 60 100) 20).regime = some "normal" := by
  have hall : ∀ z ∈ (calcVolatility (List.replicate 60 (100:ℝ)) 20).filterMap id,
      z = 0 := by
    intro z hz
    rcases List.mem_filterMap.1 hz with ⟨a, ha, hid⟩
    rcases calcVolatility_replicate_mem 60 20 100 a ha with h | h
    · rw [h] at hid
      simp at hid
    · rw [h] at hid
      simpa using hid.symm
  have h21 : (calcVolatility (List.replicate 60 (100:ℝ)) 20).getD 21 none =
      some 0 := by
    have h := calcVolatility_getD_high (List.replicate 60 100) 20 21
      (by omega) (by omega) (by simp)
    rw [logReturns_replicate] at h
    rw [List.drop_replicate, List.take_replicate] at h
    norm_num at h
    rw [List.getD_eq_getElem?_getD]
    rw [h, sampleStd_eq_zero (List.replicate 20 0)
      (fun x hx => List.eq_of_mem_replicate hx), zero_mul]
  have hlen21 : 21 < (calcVolatility (List.replicate 60 (100:ℝ)) 20).length := by
    rw [calcVolatility_length]
    simp
  have hmemsome : some (0:ℝ) ∈ calcVolatility (List.replicate 60 (100:ℝ)) 20 := by
    rw [← h21]
    exact getD_mem_self _ 21 none hlen21
  have hmem : (0:ℝ) ∈ (calcVolatility (List.replicate 60 (100:ℝ)) 20).filterMap id :=
    List.mem_filterMap.2 ⟨some 0, hmemsome, rfl⟩
  have hne : ¬ ∀ a ∈ calcVolatility (List.replicate 60 (100:ℝ)) 20, a = none := by
    intro hcon
    simpa using hcon _ hmemsome
  have hlenpos :
      0 < ((calcVolatility (List.replicate 60 (100:ℝ)) 20).filterMap id).length :=
    List.length_pos.2 (List.ne_nil_of_mem hmem)
  have hcur : ((calcVolatility (List.replicate 60 (100:ℝ)) 20).filterMap
      id).getD
      (((calcVolatility (List.replicate 60 (100:ℝ)) 20).filterMap id).length - 1)
      0 = 0 :=
    hall _ (getD_mem_self _ _ _ (by omega))
  rw [List.getD_eq_getElem?_getD] at hcur
  constructor
  · unfold volExecute
    norm_num
    rw [if_neg hne]
  · unfold volExecute
    norm_num
    rw [if_neg hne]
    rw [hcur, classifyVolRegime_zero _ hall]

/-- C8, counterexample: the claimed shape fails at window 1.  For the
three-point series `[1, 2, 3]` (length = window + 2) the claim demands an
available standard-deviation value at index 2, but pandas computes the
`ddof=1` standard deviation of a single-observation window, which is `NaN`,
so `_calculate_volatility` returns `None` there. -/
theorem C8_counterexample :
    ([(1 : ℝ), 2, 3]).length = 1 + 2 ∧
    (calcVolatility [1, 2, 3] 1).getD 2 none = none ∧
    (calcVolatility [1, 2, 3] 1).getD 2 none ≠
      some (sampleStd (((logReturns [1, 2, 3]).drop 1).take 1) *
        Real.sqrt 252) := by
  have hcv : calcVolatility [(1 : ℝ), 2, 3] 1 = [none, none, none] := by
    unfold calcVolatility
    rw [if_neg (by simp)]
    rw [rollingStd_of_w_lt_two 1 (by omega)]
    simp [logReturns_length]
  refine ⟨by simp, by rw [hcv]; rfl, ?_⟩
  rw [hcv]
  simp

/-- C8, amended: for every window of at least 2 and every price list with
at least `window + 2` points, the rolling volatility has the same length as
the input, its first `window + 1` entries are unavailable, and every later
entry is the sample (`ddof=1`) standard deviation of the trailing `window`
log-returns multiplied by the annualization factor sqrt 252; for inputs
shorter than `window + 1` every entry is unavailable; and at window 1
every entry is unavailable as well, because the `ddof=1` standard
deviation of a single observation is undefined (`NaN`). -/
theorem C8_rolling_volatility_shape (prices : List ℝ) (w : ℕ) :
    (2 ≤ w → w + 2 ≤ prices.length →
      (calcVolatility prices w).length = prices.length ∧
      (∀ j, j ≤ w → (calcVolatility prices w).getD j (some 0) = none) ∧
      (∀ j, w + 1 ≤ j → j < prices.length →
        (calcVolatility prices w).getD j none =
          some (sampleStd (((logReturns prices).drop (j - w)).take w) *
            Real.sqrt 252))) ∧
    (prices.length < w + 1 → ∀ x ∈ calcVolatility prices w, x = none) ∧
    (w = 1 → ∀ x ∈ calcVolatility prices w, x = none) := by
  refine ⟨?_, ?_, ?_⟩
  · intro hw hlen
    refine ⟨calcVolatility_length prices w, ?_, ?_⟩
    · intro j hj
      exact calcVolatility_getD_low prices w j hj (by omega)
    · intro j hj1 hj2
      exact calcVolatility_getD_high prices w j hw hj1 hj2
  · intro hlen x hx
    unfold calcVolatility at hx
    rw [if_pos hlen] at hx
    exact List.eq_of_mem_replicate hx
  · intro hw x hx
    subst hw
    unfold calcVolatility at hx
    split at hx
    · exact List.eq_of_mem_replicate hx
    · rw [rollingStd_of_w_lt_two 1 (by omega)] at hx
      rw [List.map_replicate] at hx
      simp only [Option.map_none'] at hx
      rw [List.drop_replicate] at hx
      rcases List.mem_append.1 hx with h | h
      · rcases List.mem_cons.1 h with h2 | h2
        · exact h2
        · exact List.eq_of_mem_replicate h2
      · exact List.eq_of_mem_replicate h

/-- Witness for the amended C8 theorem on the four-point constant series
with window 2. -/
theorem C8_rolling_volatility_shape_witness :
    (calcVolatility [1, 1, 1, 1] 2).length = 4 ∧
    (calcVolatility [1, 1, 1, 1] 2).getD 3 none =
      some (sampleStd (((logReturns [1, 1, 1, 1]).drop 1).take 2) *
        Real.sqrt 252) := by
  have h := (C8_rolling_volatility_shape [1, 1, 1, 1] 2).1 (by omega) (by simp)
  refine ⟨by rw [h.1]; simp, ?_⟩
  have h3 := h.2.2 3 (by omega) (by simp)
  simpa using h3

lemma ewmaVols_length (lam : ℝ) : ∀ (v : ℝ) (rs : List ℝ),
    (ewmaVols lam v rs).length = rs.length
  | _, [] => rfl
  | v, r :: rs => by
      unfold ewmaVols
      simp [ewmaVols_length lam _ rs]

/-- Reference recursion for the EWMA variance with an explicit seed:
`seed` at step 0, then `v (k+1) = lam * v k + (1 - lam) * rs[k] ^ 2`. -/
noncomputable def ewmaVarSeed (lam v : ℝ) (rs : List ℝ) : ℕ → ℝ
  | 0 => v
  | k + 1 => lam * ewmaVarSeed lam v rs k + (1 - lam) * (rs.getD k 0) ^ 2

lemma ewmaVarSeed_cons (lam : ℝ) : ∀ (k : ℕ) (v r : ℝ) (rs : List ℝ),
    ewmaVarSeed lam v (r :: rs) (k + 1) =
      ewmaVarSeed lam (lam * v + (1 - lam) * r ^ 2) rs k
  | 0, v, r, rs => by
      unfold ewmaVarSeed
      rfl
  | k + 1, v, r, rs => by
      unfold ewmaVarSeed
      rw [ewmaVarSeed_cons lam k v r rs]
      rfl

lemma ewmaVols_getD (lam : ℝ) : ∀ (rs : List ℝ) (v : ℝ) (k : ℕ),
    k < rs.length →
    (ewmaVols lam v rs).getD k 0 =
      Real.sqrt (ewmaVarSeed lam v rs (k + 1)) * Real.sqrt 252
  | [], v, k, hk => by simp at hk
  | r :: rs, v, 0, _ => by
      unfold ewmaVols ewmaVarSeed
      simp [ewmaVarSeed]
  | r :: rs, v, k + 1, hk => by
      unfold ewmaVols
      rw [List.getD_cons_succ]
      rw [ewmaVols_getD lam rs _ k (by simpa using hk)]
      rw [ewmaVarSeed_cons lam (k + 1) v r rs]

lemma ewmaVar_cons (lam r0 : ℝ) (rest : List ℝ) : ∀ i : ℕ,
    ewmaVar lam (r0 :: rest) i = ewmaVarSeed lam (r0 ^ 2) rest i
  | 0 => by
      unfold ewmaVar ewmaVarSeed
      simp
  | i + 1 => by
      unfold ewmaVar ewmaVarSeed
      rw [ewmaVar_cons lam r0 rest i]
      simp

lemma getD_map_some (L : List ℝ) (k : ℕ) (hk : k < L.length) :
    (L.map some).getD k none = some (L.getD k 0) := by
  rw [List.getD_eq_getElem?_getD, List.getElem?_map,
    List.getElem?_eq_getElem hk, List.getD_eq_getElem?_getD,
    List.getElem?_eq_getElem hk]
  rfl

lemma movingAverage_length (prices : List ℝ) (w : ℕ) :
    (movingAverage prices w).length = prices.length := by
  unfold movingAverage
  split <;> simp

/-- C9: for at least two prices, the EWMA volatility list has exactly
`n - 1` elements (one shorter than its input, unlike the moving average and
the rolling volatility, which preserve the input length), its first element
is unavailable, and element `i ≥ 1` is sqrt 252 times the square root of
the EWMA variance recursion `v t = lam * v (t-1) + (1 - lam) * r t ^ 2`
seeded with `v 0 = r 0 ^ 2`; for fewer than two prices it is `n`
unavailable elements. -/
theorem C9_ewma_volatility_shape (prices : List ℝ) (lam : ℝ) (w : ℕ) :
    (2 ≤ prices.length →
      (calcEwmaVolatility prices lam).length = prices.length - 1 ∧
      (calcEwmaVolatility prices lam).getD 0 (some 0) = none ∧
      (∀ i, 1 ≤ i → i < prices.length - 1 →
        (calcEwmaVolatility prices lam).getD i none =
          some (Real.sqrt (ewmaVar lam (logReturns prices) i) *
            Real.sqrt 252))) ∧
    (prices.length < 2 →
      calcEwmaVolatility prices lam = List.replicate prices.length none) ∧
    (movingAverage prices w).length = prices.length ∧
    (calcVolatility prices w).length = prices.length := by
  refine ⟨?_, ?_, movingAverage_length prices w, calcVolatility_length prices w⟩
  · intro hlen
    have hrs : (logReturns prices).length = prices.length - 1 :=
      logReturns_length prices
    cases heq : logReturns prices with
    | nil =>
        rw [heq] at hrs
        simp at hrs
        omega
    | cons r0 rest =>
        have hcalc : calcEwmaVolatility prices lam =
            none :: (ewmaVols lam (r0 ^ 2) rest).map some := by
          unfold calcEwmaVolatility
          rw [if_neg (by omega), heq]
        rw [heq] at hrs
        simp only [List.length_cons] at hrs
        refine ⟨?_, ?_, ?_⟩
        · rw [hcalc]
          simp [ewmaVols_length]
          omega
        · rw [hcalc]
          rfl
        · intro i hi1 hi2
          rw [hcalc]
          cases i with
          | zero => omega
          | succ k =>
              rw [List.getD_cons_succ]
              have hk : k < rest.length := by omega
              rw [getD_map_some _ k (by rw [ewmaVols_length]; exact hk)]
              rw [ewmaVols_getD lam rest _ k hk]
              rw [ewmaVar_cons lam r0 rest (k + 1)]
  · intro hlen
    unfold calcEwmaVolatility
    rw [if_pos hlen]

/-- Witness for C9 on a three-point constant series with decay 1/2 and
window 2 for the length-preserving contrast statistics. -/
theorem C9_ewma_volatility_shape_witness :
    (calcEwmaVolatility [1, 1, 1] (1 / 2)).length = 2 ∧
    (calcEwmaVolatility [1, 1, 1] (1 / 2)).getD 1 none =
      some (Real.sqrt (ewmaVar (1 / 2) (logReturns [1, 1, 1]) 1) *
        Real.sqrt 252) ∧
    (movingAverage [1, 1, 1] 2).length = 3 ∧
    (calcVolatility [1, 1, 1] 2).length = 3 := by
  have h := C9_ewma_volatility_shape [1, 1, 1] (1 / 2) 2
  have h1 := h.1 (by simp)
  refine ⟨by rw [h1.1]; simp, ?_, by rw [h.2.2.1]; simp,
    by rw [h.2.2.2]; simp⟩
  exact h1.2.2 1 (by omega) (by simp)

lemma cycleTrendDir_binary (prices : List ℝ) (period : ℕ)
    (h : period < prices.length) :
    cycleTrendDir prices period = "up" ∨
      cycleTrendDir prices period = "down" := by
  unfold cycleTrendDir
  by_cases h1 : prices.getD (prices.length - 1) 0 >
      prices.getD (prices.length - period) 0
  · rw [if_pos h1]
    exact Or.inl rfl
  · rw [if_neg h1, if_pos h]
    exact Or.inr rfl

/-- C10: for every input the cycle classifier accepts (at least 20 points)
the reported recent and longer trends are each "up" or "down", never
"neutral" (the comparison periods are capped at `len - 1`, so the neutral
branch is unreachable), and the regime-change signal is exactly the
inequality of the two binary trend directions. -/
theorem C10_cycle_trend_binary (prices : List ℝ) (h20 : 20 ≤ prices.length) :
    ((cycleTrendSignals prices).1 = "up" ∨
      (cycleTrendSignals prices).1 = "down") ∧
    ((cycleTrendSignals prices).2.1 = "up" ∨
      (cycleTrendSignals prices).2.1 = "down") ∧
    (cycleTrendSignals prices).2.2 =
      decide ((cycleTrendSignals prices).1 ≠
        (cycleTrendSignals prices).2.1) := by
  refine ⟨?_, ?_, rfl⟩
  · exact cycleTrendDir_binary prices _
      (Nat.lt_of_le_of_lt (Nat.min_le_right _ _) (by omega))
  · exact cycleTrendDir_binary prices _
      (Nat.lt_of_le_of_lt (Nat.min_le_right _ _) (by omega))

/-- Witness for C10 on the constant 20-point series. -/
theorem C10_cycle_trend_binary_witness :
    ((cycleTrendSignals (List.replicate 20 1)).1 = "up" ∨
      (cycleTrendSignals (List.replicate 20 1)).1 = "down") ∧
    ((cycleTrendSignals (List.replicate 20 1)).2.1 = "up" ∨
      (cycleTrendSignals (List.replicate 20 1)).2.1 = "down") ∧
    (cycleTrendSignals (List.replicate 20 1)).2.2 =
      decide ((cycleTrendSignals (List.replicate 20 1)).1 ≠
        (cycleTrendSignals (List.replicate 20 1)).2.1) :=
  C10_cycle_trend_binary (List.replicate 20 1) (by simp)

end Copinance
